import Mathlib

/-!
Verification development for the drone flight emulator
(client/static/drone_sender.js and the reset handler in client/static/ui.js).

Modelling conventions:
* JS numbers are embedded as rationals; the transcendental library functions
  (Math.sin, Math.cos, Math.sqrt, Math.exp, Math.atan2, Math.PI) are abstracted
  into a `Prims` record so every definition stays computable.  Theorems are
  quantified over all `Prims`, and concrete witnesses instantiate them.
* Each `Math.random()` call of one tick is one field of a `RandDraw` record.
* The one array access that can throw in JS (`route[waypointIndex]` with an
  out-of-range index) makes the tick return `Option`; every other index access
  is guarded by the surrounding condition in the source.
-/

/-- Abstracted numeric library primitives used by the emulator. -/
structure Prims where
  sin : ℚ → ℚ
  cos : ℚ → ℚ
  sqrt : ℚ → ℚ
  exp : ℚ → ℚ
  atan2 : ℚ → ℚ → ℚ
  pi : ℚ

/-- One realization of the Math.random() draws of a single physics tick. -/
structure RandDraw where
  vert : ℚ
  vxN : ℚ
  vyN : ℚ
  vzN : ℚ
  altN : ℚ
  latN : ℚ
  lngN : ℚ
  rpmN : ℚ
  gps : ℚ
  deriving DecidableEq, Repr

/-- A latitude/longitude point, as the {lat, lng} objects of the source. -/
structure Pos where
  lat : ℚ
  lng : ℚ
  deriving DecidableEq, Inhabited, Repr

/-- Wind setting: speed (km/h) and direction (degrees). -/
structure Wind where
  speed : ℚ
  direction : ℚ
  deriving DecidableEq, Inhabited, Repr

/-- Jam zone: center point and radius in meters. -/
structure Jam where
  center : Pos
  radius : ℚ
  deriving DecidableEq, Repr

/-- Flight mode strings of the source: "onGround", "takeOff", "cruise", "landing". -/
inductive Mode where
  | onGround
  | takeOff
  | cruise
  | landing
  deriving DecidableEq, Repr

/-- The mutable `state` object of drone_sender.js (lines 71-104), plus the
dynamically added `desiredSpeed` field (absent initially, hence `Option`). -/
structure DroneState where
  position : Pos
  altitude : ℚ
  targetAltitude : ℚ
  verticalSpeed : ℚ
  homePosition : Option Pos
  flightStarted : Bool
  route : List Pos
  waypointIndex : ℕ
  vx : ℚ
  vy : ℚ
  horizontalSpeed : ℚ
  timeMultiplier : ℚ
  fullFlightTime : ℚ
  altStability : ℚ
  hoverMode : Bool
  repeatMission : Bool
  wind : Wind
  engineRPM : ℚ
  batteryLevel : ℚ
  batteryTemperature : ℚ
  flightTime : ℚ
  totalDistance : ℚ
  mode : Mode
  cruiseAltitude : ℚ
  jamZone : Option Jam
  gpsQuality : ℚ
  crashed : Bool
  desiredSpeed : Option ℚ
  deriving DecidableEq, Repr

/-- The drone state together with the module-level PID variables
`altErrorIntegral` and `lastAltError` of the source. -/
structure SimState where
  s : DroneState
  altErrorIntegral : ℚ
  lastAltError : ℚ
  deriving DecidableEq, Repr

/-- Initial value of the `state` object (drone_sender.js lines 71-104). -/
def initState : DroneState where
  position := ⟨557522/10000, 376156/10000⟩
  altitude := 0
  targetAltitude := 0
  verticalSpeed := 0
  homePosition := none
  flightStarted := false
  route := []
  waypointIndex := 0
  vx := 0
  vy := 0
  horizontalSpeed := 50 / (36/10)
  timeMultiplier := 100
  fullFlightTime := 30
  altStability := 1
  hoverMode := false
  repeatMission := false
  wind := ⟨0, 0⟩
  engineRPM := 2000
  batteryLevel := 100
  batteryTemperature := 30
  flightTime := 0
  totalDistance := 0
  mode := Mode.onGround
  cruiseAltitude := 100
  jamZone := none
  gpsQuality := 1
  crashed := false
  desiredSpeed := none

/-- Initial whole-module state: fresh drone state and zeroed PID variables. -/
def initSimState : SimState := ⟨initState, 0, 0⟩

/-- Constant maxAcceleration = 5 of the source. -/
def maxAcceleration : ℚ := 5

/-- Constant minSpeed = 0.5 of the source. -/
def minSpeed : ℚ := 1/2

/-- Constant maxIntegral = 10 of the source. -/
def maxIntegral : ℚ := 10

/-- PID gain Kp_alt = 0.4 of the source. -/
def Kp_alt : ℚ := 4/10

/-- PID gain Ki_alt = 0.05 of the source. -/
def Ki_alt : ℚ := 5/100

/-- PID gain Kd_alt = 0.15 of the source. -/
def Kd_alt : ℚ := 15/100

/-- `clamp(value, min, max)` of the source: Math.max(min, Math.min(max, value)). -/
def clamp (value lo hi : ℚ) : ℚ := max lo (min hi value)

/-- `computeDistance(a, b)` of the source: haversine distance on a sphere of
radius 6,371,000 m, expressed over the abstract primitives. -/
def computeDistance (pr : Prims) (a b : Pos) : ℚ :=
  let R : ℚ := 6371000
  let dLat := (b.lat - a.lat) * pr.pi / 180
  let dLon := (b.lng - a.lng) * pr.pi / 180
  let lat1 := a.lat * pr.pi / 180
  let lat2 := b.lat * pr.pi / 180
  let A := (pr.sin (dLat / 2)) ^ 2 + pr.cos lat1 * pr.cos lat2 * (pr.sin (dLon / 2)) ^ 2
  R * 2 * pr.atan2 (pr.sqrt A) (pr.sqrt (1 - A))

/-- Loop body of `filterRoute`: `last` is the most recently kept point; a point
is kept exactly when its distance to `last` exceeds 5 meters. -/
def filterGo (pr : Prims) (last : Pos) : List Pos → List Pos
  | [] => []
  | pt :: rest =>
    if 5 < computeDistance pr pt last then pt :: filterGo pr pt rest
    else filterGo pr last rest

/-- `filterRoute(route)` of the source (lines 56-64): the first point is always
kept (the `filtered` array starts empty), then `filterGo` runs the loop. -/
def filterRoute (pr : Prims) : List Pos → List Pos
  | [] => []
  | pt :: rest => pt :: filterGo pr pt rest

/-- `getVirtualTarget(currentPos, waypoint, brakingDistance, safetyMargin)` of
the source (lines 116-127). -/
def getVirtualTarget (pr : Prims) (currentPos waypoint : Pos)
    (brakingDistance safetyMargin : ℚ) : Pos :=
  let d := computeDistance pr currentPos waypoint
  if d > brakingDistance + safetyMargin then
    let ratio := (d - brakingDistance - safetyMargin) / d
    ⟨waypoint.lat + (currentPos.lat - waypoint.lat) * ratio,
     waypoint.lng + (currentPos.lng - waypoint.lng) * ratio⟩
  else waypoint

/-- Desired-speed computation of the `d >= 10` branch as a function of the
distance to the virtual target (source lines 173-183): linear scaling inside
the braking envelope, the base speed otherwise, floored at `minSpeed`.
`maxDeceleration = 2`, `safetyMargin = 10` as in the source. -/
def brakeSpeed (baseSpeed distanceToVirtual : ℚ) : ℚ :=
  let brakingDistance := baseSpeed ^ 2 / (2 * 2)
  let safetyMargin : ℚ := 10
  max minSpeed
    (if distanceToVirtual < brakingDistance + safetyMargin then
      baseSpeed * (distanceToVirtual / (brakingDistance + safetyMargin))
    else baseSpeed)

/-- Full desired-speed computation of the source (lines 170-186): for
`d >= 10` the virtual target is computed and `brakeSpeed` applied to the
distance to it; for `d < 10` the base speed is used unmodified. -/
def desiredSpeedOf (pr : Prims) (currentPos wp : Pos) (baseSpeed d : ℚ) : ℚ :=
  if 10 ≤ d then
    brakeSpeed baseSpeed
      (computeDistance pr currentPos
        (getVirtualTarget pr currentPos wp (baseSpeed ^ 2 / (2 * 2)) 10))
  else baseSpeed

/-- Waypoint-advance logic of the source (lines 151-168), entered when the
distance to the current waypoint fell below 10 m.  Returns the updated state,
the target waypoint and the (possibly recomputed) distance to it. -/
def advanceWp (pr : Prims) (s : DroneState) (wp0 : Pos) (d0 : ℚ) :
    DroneState × Pos × ℚ :=
  let idx := s.waypointIndex + 1
  if s.route.length ≤ idx then
    if s.repeatMission = true ∧ 1 < s.route.length then
      let newRoute :=
        match s.homePosition with
        | some h => [s.position, h]
        | none => [s.position, s.route.headI]
      ({ s with route := newRoute, waypointIndex := 1 }, wp0, d0)
    else
      let s1 := { s with waypointIndex := idx, mode := Mode.landing, targetAltitude := 0 }
      let wp := s.route.getLastD default
      (s1, wp, computeDistance pr s.position wp)
  else
    ({ s with waypointIndex := idx }, s.route.getD idx default,
      computeDistance pr s.position (s.route.getD idx default))

/-- Shared movement integration of the source (lines 188-207 and 212-231):
bearing to the target, acceleration-limited velocity update, wind vector added,
flat-earth integration into latitude/longitude (the longitude update reads the
already-updated latitude, as line 207 does). -/
def moveToward (pr : Prims) (dt : ℚ) (wp : Pos) (speed : ℚ) (s : DroneState) :
    DroneState :=
  let desiredBearing := pr.atan2 (wp.lat - s.position.lat) (wp.lng - s.position.lng)
  let desiredVx := pr.cos desiredBearing * speed
  let desiredVy := pr.sin desiredBearing * speed
  let ax0 := desiredVx - s.vx
  let ay0 := desiredVy - s.vy
  let aMag := pr.sqrt (ax0 * ax0 + ay0 * ay0)
  let ax := if maxAcceleration < aMag then ax0 * (maxAcceleration / aMag) else ax0
  let ay := if maxAcceleration < aMag then ay0 * (maxAcceleration / aMag) else ay0
  let vx := s.vx + ax * dt
  let vy := s.vy + ay * dt
  let windSpeedMs := s.wind.speed / (36/10)
  let windRad := s.wind.direction * pr.pi / 180
  let windVx := pr.cos windRad * windSpeedMs
  let windVy := pr.sin windRad * windSpeedMs
  let totalVx := vx + windVx
  let totalVy := vy + windVy
  let lat1 := s.position.lat + (totalVy * dt) / 111320
  let lng1 := s.position.lng + (totalVx * dt) / (111320 * pr.cos (lat1 * pr.pi / 180))
  { s with vx := vx, vy := vy, position := ⟨lat1, lng1⟩ }

/-- Horizontal-movement phase of `updateFlightPhysics` (lines 146-233).
Returns `none` exactly when `route[waypointIndex]` is out of range, which in
the JS source throws a TypeError inside `computeDistance`. -/
def horizontalStep (pr : Prims) (dt : ℚ) (s : DroneState) : Option DroneState :=
  if s.hoverMode = false ∧ s.flightStarted = true ∧ 0 < s.route.length then
    if s.mode ≠ Mode.landing then
      match s.route.get? s.waypointIndex with
      | none => none
      | some wp0 =>
        let d0 := computeDistance pr s.position wp0
        let a := if d0 < 10 then advanceWp pr s wp0 d0 else (s, wp0, d0)
        let ds := desiredSpeedOf pr a.1.position a.2.1 a.1.horizontalSpeed a.2.2
        some (moveToward pr dt a.2.1 ds { a.1 with desiredSpeed := some ds })
    else
      some (moveToward pr dt (s.route.getLastD default) s.horizontalSpeed s)
  else some s

/-- Mode-transition section of the tick (lines 236-259): takeoff-to-cruise
switch (resetting the integral term), and the landing touchdown check with the
hard-landing crash at engine RPM above 8000.  Returns the state and the
possibly reset `altErrorIntegral`. -/
def verticalModeStep (integ : ℚ) (s : DroneState) : DroneState × ℚ :=
  if s.mode = Mode.takeOff then
    let s1 := if s.altitude < 1 then { s with targetAltitude := s.cruiseAltitude } else s
    if s1.cruiseAltitude * (95/100) ≤ s1.altitude then
      ({ s1 with mode := Mode.cruise }, 0)
    else (s1, integ)
  else if s.mode = Mode.landing then
    let s1 := { s with targetAltitude := 0 }
    if s1.altitude ≤ 1 then
      if 8000 < s1.engineRPM then ({ s1 with crashed := true }, integ)
      else ({ s1 with altitude := 0, verticalSpeed := 0, mode := Mode.onGround,
                      flightStarted := false }, integ)
    else (s1, integ)
  else (s, integ)

/-- PID vertical-control section of the tick (lines 262-277): clamped integral,
derivative over `dt`, wind-scaled random disturbance, output clamped to
[-3, 3], first-order-smoothed vertical speed, altitude integration with the
floor at 0.  Returns (state, new integral, new lastAltError, verticalAccel). -/
def pidStep (r : RandDraw) (dt lastErr integ : ℚ) (s : DroneState) :
    DroneState × ℚ × ℚ × ℚ :=
  let altError := s.targetAltitude - s.altitude
  let integ1 := clamp (integ + altError * dt) (-maxIntegral) maxIntegral
  let altErrorDerivative := (altError - lastErr) / dt
  let va0 := Kp_alt * altError + Ki_alt * integ1 + Kd_alt * altErrorDerivative
  let va1 := va0 + (r.vert - 1/2) * (1/2) * (s.wind.speed / 10)
  let va := clamp va1 (-3) 3
  let vs := (9/10) * s.verticalSpeed + va * dt
  let alt := s.altitude + vs * dt
  let s1 :=
    if alt < 0 then { s with altitude := 0, verticalSpeed := 0 }
    else { s with altitude := alt, verticalSpeed := vs }
  (s1, integ1, altError, va)

/-- Exponential amplification factor of the jam zone (line 283):
`1.5 * exp((radius - d) / radius) - 1` with `d` the distance to the center. -/
def jamFactor (pr : Prims) (j : Jam) (p : Pos) : ℚ :=
  (3/2) * pr.exp ((j.radius - computeDistance pr p j.center) / j.radius) - 1

/-- Jam-zone section of the tick (lines 280-307): inside the zone the crash
check at 10 percent of the radius runs first, then the random perturbations
scaled by `jamFactor` are added and GPS quality degrades; outside the zone or
with no zone the GPS quality recovers or random-walks. -/
def jamStep (pr : Prims) (r : RandDraw) (s : DroneState) : DroneState :=
  match s.jamZone with
  | some jz =>
    let dJam := computeDistance pr s.position jz.center
    if dJam < jz.radius then
      let expFactor := jamFactor pr jz s.position
      let s1 :=
        if dJam < (1/10) * jz.radius then
          { s with crashed := true, flightStarted := false, vx := 0, vy := 0,
                   verticalSpeed := -5 }
        else s
      { s1 with
        vx := s1.vx + (r.vxN - 1/2) * 1 * expFactor
        vy := s1.vy + (r.vyN - 1/2) * 1 * expFactor
        verticalSpeed := s1.verticalSpeed + (r.vzN - 1/2) * 1 * expFactor
        altitude := s1.altitude + (r.altN - 1/2) * 2 * expFactor
        position := ⟨s1.position.lat + (r.latN - 1/2) * (1/1000) * expFactor,
                     s1.position.lng + (r.lngN - 1/2) * (1/1000) * expFactor⟩
        engineRPM := s1.engineRPM + (r.rpmN - 1/2) * 100 * expFactor
        gpsQuality := clamp (s1.gpsQuality - (1/10) * expFactor) (1/10) 1 }
    else { s with gpsQuality := clamp (s.gpsQuality + (5/1000)) 0 1 }
  | none => { s with gpsQuality := clamp (s.gpsQuality + (r.gps - 1/2) * (1/1000)) (8/10) 1 }

/-- Engine/battery section of the tick (lines 310-322): load from the clamped
vertical acceleration and the horizontal speed magnitude, first-order RPM lag,
battery depletion floored at 0, temperature drift clamped to [30, 60]. -/
def powerStep (pr : Prims) (dt va : ℚ) (s : DroneState) : DroneState :=
  let horizontalAccel := pr.sqrt (s.vx * s.vx + s.vy * s.vy)
  let totalLoad := |va| + horizontalAccel
  let desiredRPM := 2000 + 500 * totalLoad
  let rpm := s.engineRPM + (desiredRPM - s.engineRPM) * (5/100)
  let batt0 := s.batteryLevel - (1/100) * totalLoad * dt
  let batt := if batt0 < 0 then 0 else batt0
  let temp0 :=
    if 3000 < rpm then s.batteryTemperature + (1/100) * dt * totalLoad
    else s.batteryTemperature - (2/100) * dt
  { s with engineRPM := rpm, batteryLevel := batt,
           batteryTemperature := clamp temp0 30 60 }

/-- Odometry section of the tick (lines 324-326): total distance accumulates
the displacement since the start of the tick; flight time accumulates while
the flight-active flag is set. -/
def odometryStep (pr : Prims) (dt : ℚ) (prevPos : Pos) (s : DroneState) : DroneState :=
  let s1 := { s with totalDistance := s.totalDistance + computeDistance pr prevPos s.position }
  if s1.flightStarted = true then { s1 with flightTime := s1.flightTime + dt } else s1

/-- `updateFlightPhysics(dt)` of the source (lines 141-327): frozen when
crashed, otherwise horizontal movement, mode transitions, PID vertical
control, jam-zone interference, power model and odometry, in source order. -/
def updateFlightPhysics (pr : Prims) (r : RandDraw) (dt : ℚ) (ss : SimState) :
    Option SimState :=
  if ss.s.crashed = true then some ss
  else
    match horizontalStep pr dt ss.s with
    | none => none
    | some s1 =>
      let v := verticalModeStep ss.altErrorIntegral s1
      let p := pidStep r dt ss.lastAltError v.2 v.1
      let s4 := jamStep pr r p.1
      let s5 := powerStep pr dt p.2.2.2 s4
      let s6 := odometryStep pr dt ss.s.position s5
      some ⟨s6, p.2.1, p.2.2.1⟩

/-- The commanded load of one tick (lines 310-311), expressed with the same
phase functions the tick uses, given the horizontal-phase result `s1`. -/
def tickLoad (pr : Prims) (r : RandDraw) (dt : ℚ) (ss : SimState) (s1 : DroneState) : ℚ :=
  let v := verticalModeStep ss.altErrorIntegral s1
  let p := pidStep r dt ss.lastAltError v.2 v.1
  let s4 := jamStep pr r p.1
  |p.2.2.2| + pr.sqrt (s4.vx * s4.vx + s4.vy * s4.vy)

/-- The `resetBtn.onclick` handler of ui.js (lines 282-311), restricted to its
mutations of the emulator state: position back to the map origin, flight and
route fields cleared, parameter fields re-read from the sliders, crash flag
cleared.  All other fields are left untouched. -/
def resetState (speedVal multVal fftVal altStabVal : ℚ) (s : DroneState) : DroneState :=
  { s with
    position := ⟨356895/10000, 1396917/10000⟩
    altitude := 0
    targetAltitude := 0
    verticalSpeed := 0
    homePosition := none
    flightStarted := false
    route := []
    waypointIndex := 0
    horizontalSpeed := speedVal / (36/10)
    timeMultiplier := multVal
    fullFlightTime := fftVal
    altStability := altStabVal
    hoverMode := false
    crashed := false }

/-- `FlightEmulation.startFlight` (lines 412-431).  The returned list models
the console output of the call: the rejected path produces nothing, the
accepted path logs the start message. -/
def startFlight (pr : Prims) (ss : SimState) : SimState × List String :=
  if ss.s.route.length < 2 then (ss, [])
  else
    let rFiltered := filterRoute pr ss.s.route
    let sWithRoute := { ss.s with route := rFiltered }
    let s1 :=
      if sWithRoute.flightStarted = false then
        let p0 := rFiltered.headI
        { sWithRoute with
          position := p0, vx := 0, vy := 0, waypointIndex := 1,
          flightTime := 0, totalDistance := 0,
          homePosition :=
            match sWithRoute.homePosition with
            | none => some p0
            | some h => some h,
          mode := Mode.takeOff, crashed := false }
      else sWithRoute
    (⟨{ s1 with flightStarted := true, hoverMode := false }, 0,
      s1.targetAltitude - s1.altitude⟩, ["Flight started"])

/-- Optional parameters of `FlightEmulation.updateParameters` (lines 476-482). -/
structure Params where
  speed : Option ℚ
  timeMult : Option ℚ
  fullTime : Option ℚ
  altStab : Option ℚ
  deriving DecidableEq, Repr

/-- The external command interface: every `FlightEmulation` method plus the
manual-control nudges and the reset handler of ui.js. -/
inductive Cmd where
  | start
  | stop
  | setRoute (route : List Pos)
  | setHome
  | takeOff
  | land
  | hover
  | updateParams (p : Params)
  | updateWind (speed direction : ℚ)
  | setJamZone (j : Jam)
  | clearJamZone
  | setRepeat (b : Bool)
  | reset (speedVal multVal fftVal altStabVal : ℚ)
  | nudgeNorth
  | nudgeSouth
  | nudgeEast
  | nudgeWest
  | altUp
  | altDown
  deriving DecidableEq, Repr

/-- Applies one external command to the module state, following
drone_sender.js lines 410-500 and the manual-control and reset handlers of
ui.js (lines 282-338). -/
def applyCmd (pr : Prims) (c : Cmd) (ss : SimState) : SimState :=
  match c with
  | Cmd.start => (startFlight pr ss).1
  | Cmd.stop =>
    { ss with s := { ss.s with flightStarted := false, route := [], waypointIndex := 0 } }
  | Cmd.setRoute route =>
    { ss with s := { ss.s with route := filterRoute pr route, waypointIndex := 0 } }
  | Cmd.setHome =>
    { ss with s := { ss.s with homePosition := some ss.s.position } }
  | Cmd.takeOff =>
    if ss.s.flightStarted = true then ss
    else
      let s1 := { ss.s with altitude := 0, cruiseAltitude := 100, targetAltitude := 100,
                            mode := Mode.takeOff, flightStarted := true, hoverMode := false }
      ⟨s1, 0, s1.targetAltitude - s1.altitude⟩
  | Cmd.land =>
    if ss.s.flightStarted = false then ss
    else { ss with s := { ss.s with mode := Mode.landing, targetAltitude := 0,
                                    hoverMode := false } }
  | Cmd.hover =>
    if ss.s.flightStarted = false then ss
    else { ss with s := { ss.s with hoverMode := true } }
  | Cmd.updateParams p =>
    let s1 :=
      match p.speed with
      | some v => { ss.s with horizontalSpeed := v / (36/10) }
      | none => ss.s
    let s2 :=
      match p.timeMult with
      | some v => { s1 with timeMultiplier := v }
      | none => s1
    let s3 :=
      match p.fullTime with
      | some v => { s2 with fullFlightTime := v }
      | none => s2
    let s4 :=
      match p.altStab with
      | some v => { s3 with altStability := v }
      | none => s3
    { ss with s := s4 }
  | Cmd.updateWind sp dir => { ss with s := { ss.s with wind := ⟨sp, dir⟩ } }
  | Cmd.setJamZone j => { ss with s := { ss.s with jamZone := some j } }
  | Cmd.clearJamZone => { ss with s := { ss.s with jamZone := none } }
  | Cmd.setRepeat b => { ss with s := { ss.s with repeatMission := b } }
  | Cmd.reset v1 v2 v3 v4 => { ss with s := resetState v1 v2 v3 v4 ss.s }
  | Cmd.nudgeNorth =>
    { ss with s := { ss.s with position := ⟨ss.s.position.lat + 1/10000, ss.s.position.lng⟩ } }
  | Cmd.nudgeSouth =>
    { ss with s := { ss.s with position := ⟨ss.s.position.lat - 1/10000, ss.s.position.lng⟩ } }
  | Cmd.nudgeEast =>
    { ss with s := { ss.s with position := ⟨ss.s.position.lat, ss.s.position.lng + 1/10000⟩ } }
  | Cmd.nudgeWest =>
    { ss with s := { ss.s with position := ⟨ss.s.position.lat, ss.s.position.lng - 1/10000⟩ } }
  | Cmd.altUp =>
    { ss with s := { ss.s with targetAltitude := ss.s.targetAltitude + 5 } }
  | Cmd.altDown =>
    { ss with s := { ss.s with targetAltitude := max 0 (ss.s.targetAltitude - 5) } }

/-- True exactly for the two commands whose handlers assign `homePosition`:
the explicit setHome command and the reset handler. -/
def Cmd.isHomeWriter : Cmd → Bool
  | Cmd.setHome => true
  | Cmd.reset _ _ _ _ => true
  | _ => false

/-- Concrete primitive instance used by witnesses: every transcendental
function returns a constant, which the abstract theorems allow. -/
def testPrims : Prims :=
  ⟨fun _ => 0, fun _ => 0, fun _ => 0, fun _ => 1, fun _ _ => 0, 355 / 113⟩

/-- Second primitive instance, with exp constantly 2.7 (the value the real
exponential takes near the jam-zone center) and an atan2 giving a haversine
distance of 6.371 m between any two points. -/
def testPrimsB : Prims :=
  ⟨fun _ => 0, fun _ => 0, fun _ => 0, fun _ => 27/10, fun _ _ => 1 / 2000000, 355 / 113⟩

/-- Third primitive instance: exp constantly 2.7 and zero distances, placing
every point at the exact center of any jam zone. -/
def testPrimsC : Prims :=
  ⟨fun _ => 0, fun _ => 0, fun _ => 0, fun _ => 27/10, fun _ _ => 0, 355 / 113⟩

/-- Test draw with every Math.random() result equal to 0.5 (all zero-mean
perturbations vanish). -/
def drawHalf : RandDraw := ⟨1/2, 1/2, 1/2, 1/2, 1/2, 1/2, 1/2, 1/2, 1/2⟩

/-- Test draw with every Math.random() result equal to 1 except the altitude
perturbation draw, which is 0. -/
def drawOne : RandDraw := ⟨1, 1, 1, 1, 0, 1, 1, 1, 1⟩

/-- C7.  For every state with the crashed flag set, one tick of
`updateFlightPhysics` returns the state completely unchanged: the guard on
line 142 of the source freezes the physics integration. -/
theorem tick_frozen_when_crashed (pr : Prims) (r : RandDraw) (dt : ℚ) (ss : SimState)
    (h : ss.s.crashed = true) : updateFlightPhysics pr r dt ss = some ss := by
  simp [updateFlightPhysics, h]

/-- Witness for C7: the frozen-tick theorem applied to the initial state with
the crashed flag set. -/
theorem tick_frozen_when_crashed_witness :
    ({ initState with crashed := true } : DroneState).crashed = true ∧
      updateFlightPhysics testPrims drawHalf (1/10) ⟨{ initState with crashed := true }, 0, 0⟩ =
        some ⟨{ initState with crashed := true }, 0, 0⟩ :=
  ⟨rfl, tick_frozen_when_crashed testPrims drawHalf (1/10)
    ⟨{ initState with crashed := true }, 0, 0⟩ rfl⟩

unseal Rat.add Rat.mul Rat.inv Rat.sub in
/-- Counterexample for C7: a crashed state is not frozen against external
commands other than reset; the setRoute command still replaces the route. -/
theorem command_mutates_crashed_state :
    applyCmd testPrims (Cmd.setRoute [⟨0, 0⟩]) ⟨{ initState with crashed := true }, 0, 0⟩ ≠
      ⟨{ initState with crashed := true }, 0, 0⟩ := by
  decide

/-- C1 (amended).  The reset handler sets position, altitude, target altitude,
vertical speed, home position, flight flag, route, waypoint index, the four
slider-driven parameters, hover mode and the crashed flag to fixed reset
values, and leaves mode, engine RPM, battery level and temperature, GPS
quality, flight time, total distance, wind, jam zone, repeat-mission flag,
cruise altitude and the desired-speed cache at their pre-reset values. -/
theorem reset_command_field_effects (v1 v2 v3 v4 : ℚ) (s : DroneState) :
    (resetState v1 v2 v3 v4 s).position = ⟨356895/10000, 1396917/10000⟩ ∧
    (resetState v1 v2 v3 v4 s).altitude = 0 ∧
    (resetState v1 v2 v3 v4 s).targetAltitude = 0 ∧
    (resetState v1 v2 v3 v4 s).verticalSpeed = 0 ∧
    (resetState v1 v2 v3 v4 s).homePosition = none ∧
    (resetState v1 v2 v3 v4 s).flightStarted = false ∧
    (resetState v1 v2 v3 v4 s).route = [] ∧
    (resetState v1 v2 v3 v4 s).waypointIndex = 0 ∧
    (resetState v1 v2 v3 v4 s).horizontalSpeed = v1 / (36/10) ∧
    (resetState v1 v2 v3 v4 s).timeMultiplier = v2 ∧
    (resetState v1 v2 v3 v4 s).fullFlightTime = v3 ∧
    (resetState v1 v2 v3 v4 s).altStability = v4 ∧
    (resetState v1 v2 v3 v4 s).hoverMode = false ∧
    (resetState v1 v2 v3 v4 s).crashed = false ∧
    (resetState v1 v2 v3 v4 s).mode = s.mode ∧
    (resetState v1 v2 v3 v4 s).engineRPM = s.engineRPM ∧
    (resetState v1 v2 v3 v4 s).batteryLevel = s.batteryLevel ∧
    (resetState v1 v2 v3 v4 s).batteryTemperature = s.batteryTemperature ∧
    (resetState v1 v2 v3 v4 s).gpsQuality = s.gpsQuality ∧
    (resetState v1 v2 v3 v4 s).flightTime = s.flightTime ∧
    (resetState v1 v2 v3 v4 s).totalDistance = s.totalDistance ∧
    (resetState v1 v2 v3 v4 s).wind = s.wind ∧
    (resetState v1 v2 v3 v4 s).jamZone = s.jamZone ∧
    (resetState v1 v2 v3 v4 s).repeatMission = s.repeatMission ∧
    (resetState v1 v2 v3 v4 s).cruiseAltitude = s.cruiseAltitude ∧
    (resetState v1 v2 v3 v4 s).desiredSpeed = s.desiredSpeed := by
  refine ⟨rfl, rfl, rfl, rfl, rfl, rfl, rfl, rfl, rfl, rfl, rfl, rfl, rfl, rfl,
    rfl, rfl, rfl, rfl, rfl, rfl, rfl, rfl, rfl, rfl, rfl, rfl⟩

unseal Rat.add Rat.mul Rat.inv Rat.sub in
/-- Counterexample for C1: resetting the freshly constructed initial state (a
reachable state, via the empty command sequence) does not reproduce the
initial state; already the position differs, far beyond any floating-point
tolerance (the handler recenters on the map origin, not the initial
coordinates), so reset is not equality with the fresh initial state in every
field. -/
theorem reset_differs_from_initial_state :
    (resetState 50 100 30 1 initState).position ≠ initState.position := by
  decide

/-- Every kept point is more than 5 m from the previously kept point: the
filter loop maintains this chain invariant with respect to its accumulator. -/
lemma filterGo_chain (pr : Prims) (l : List Pos) :
    ∀ last, List.Chain' (fun a b => 5 < computeDistance pr b a) (last :: filterGo pr last l) := by
  induction l with
  | nil => intro last; simp [filterGo]
  | cons pt rest ih =>
    intro last
    by_cases h : 5 < computeDistance pr pt last
    · simp only [filterGo, if_pos h]
      exact List.chain'_cons.mpr ⟨h, ih pt⟩
    · simp only [filterGo, if_neg h]
      exact ih last

/-- Re-running the filter loop over its own output changes nothing. -/
lemma filterGo_idem (pr : Prims) (l : List Pos) :
    ∀ last, filterGo pr last (filterGo pr last l) = filterGo pr last l := by
  induction l with
  | nil => intro last; simp [filterGo]
  | cons pt rest ih =>
    intro last
    by_cases h : 5 < computeDistance pr pt last
    · simp only [filterGo, if_pos h]
      rw [ih pt]
    · simp only [filterGo, if_neg h]
      exact ih last

/-- The filter loop only drops points, preserving order. -/
lemma filterGo_sublist (pr : Prims) (l : List Pos) :
    ∀ last, List.Sublist (filterGo pr last l) l := by
  induction l with
  | nil => intro last; simp [filterGo]
  | cons pt rest ih =>
    intro last
    by_cases h : 5 < computeDistance pr pt last
    · simp only [filterGo, if_pos h]
      exact List.Sublist.cons₂ pt (ih pt)
    · simp only [filterGo, if_neg h]
      exact List.Sublist.cons pt (ih last)

/-- C4.  For every input sequence, any two consecutive points of the filtered
route are more than 5 m apart (hence never closer than 5 m), and filtering is
idempotent: filtering an already-filtered route yields the same route. -/
theorem filterRoute_spacing_idempotent (pr : Prims) (route : List Pos) :
    List.Chain' (fun a b => 5 < computeDistance pr b a) (filterRoute pr route) ∧
    filterRoute pr (filterRoute pr route) = filterRoute pr route := by
  cases route with
  | nil => simp [filterRoute]
  | cons a l =>
    constructor
    · simpa [filterRoute] using filterGo_chain pr l a
    · simp only [filterRoute]
      rw [filterGo_idem]

/-- C10.  The filtered route always starts with the original first waypoint,
it is a subsequence of the input, and consequently the start command launches
from (and, when no home is set, derives home from) the original first
waypoint. -/
theorem filterRoute_head_sublist_start (pr : Prims) (a : Pos) (l : List Pos)
    (ss : SimState) (p : Pos) (rest : List Pos) :
    (filterRoute pr (a :: l)).head? = some a ∧
    List.Sublist (filterRoute pr (a :: l)) (a :: l) ∧
    (ss.s.route = p :: rest → ¬ ss.s.route.length < 2 → ss.s.flightStarted = false →
      (startFlight pr ss).1.s.position = p ∧
      (ss.s.homePosition = none → (startFlight pr ss).1.s.homePosition = some p)) := by
  refine ⟨by simp [filterRoute], ?_, ?_⟩
  · simp only [filterRoute]
    exact List.Sublist.cons₂ a (filterGo_sublist pr l a)
  · intro hroute hlen hfs
    rw [hroute] at hlen
    simp only [List.length_cons] at hlen
    constructor
    · simp [startFlight, hlen, hroute, hfs, filterRoute]
    · intro hh
      simp [startFlight, hlen, hroute, hfs, hh, filterRoute]

/-- Witness for C10 at a concrete two-point route. -/
theorem filterRoute_head_sublist_start_witness :
    (filterRoute testPrims [⟨0, 0⟩, ⟨1, 1⟩]).head? = some ⟨0, 0⟩ ∧
    List.Sublist (filterRoute testPrims [⟨0, 0⟩, ⟨1, 1⟩]) [⟨0, 0⟩, ⟨1, 1⟩] ∧
    (startFlight testPrims ⟨{ initState with route := [⟨0, 0⟩, ⟨1, 1⟩] }, 0, 0⟩).1.s.position = ⟨0, 0⟩ ∧
    (startFlight testPrims ⟨{ initState with route := [⟨0, 0⟩, ⟨1, 1⟩] }, 0, 0⟩).1.s.homePosition = some ⟨0, 0⟩ := by
  have T := filterRoute_head_sublist_start testPrims ⟨0, 0⟩ [⟨1, 1⟩]
    ⟨{ initState with route := [⟨0, 0⟩, ⟨1, 1⟩] }, 0, 0⟩ ⟨0, 0⟩ [⟨1, 1⟩]
  have T3 := T.2.2 rfl (by decide) rfl
  exact ⟨T.1, T.2.1, T3.1, T3.2 rfl⟩

/-- C5 (amended).  For a nonnegative base speed the desired speed of the
braking branch is non-decreasing in the distance to the virtual target; it is
always at least the 0.5 m/s minimum speed; and when the base speed itself is
at least the minimum speed, the desired speed equals the base speed as soon as
the distance to the virtual target is outside the braking envelope
(brakingDistance + 10 m).  The last conjunct ties `brakeSpeed` to the full
per-tick computation `desiredSpeedOf` whenever the waypoint distance is at
least 10 m. -/
theorem brakeSpeed_monotone_floor_base (pr : Prims) (pos wp : Pos) (base d t1 t2 : ℚ) :
    (0 ≤ base → t1 ≤ t2 → brakeSpeed base t1 ≤ brakeSpeed base t2) ∧
    minSpeed ≤ brakeSpeed base t1 ∧
    (minSpeed ≤ base → base ^ 2 / (2 * 2) + 10 ≤ t1 → brakeSpeed base t1 = base) ∧
    (10 ≤ d → desiredSpeedOf pr pos wp base d =
      brakeSpeed base (computeDistance pr pos
        (getVirtualTarget pr pos wp (base ^ 2 / (2 * 2)) 10))) := by
  have hB10 : (0:ℚ) < base ^ 2 / (2 * 2) + 10 := by positivity
  refine ⟨?_, ?_, ?_, ?_⟩
  · intro hb h12
    simp only [brakeSpeed]
    rcases lt_or_le t1 (base ^ 2 / (2 * 2) + 10) with h1 | h1 <;>
      rcases lt_or_le t2 (base ^ 2 / (2 * 2) + 10) with h2 | h2
    · rw [if_pos h1, if_pos h2]
      exact max_le_max le_rfl
        (mul_le_mul_of_nonneg_left ((div_le_div_iff_of_pos_right hB10).mpr h12) hb)
    · rw [if_pos h1, if_neg (not_lt.mpr h2)]
      exact max_le_max le_rfl
        (mul_le_of_le_one_right hb ((div_le_one hB10).mpr h1.le))
    · exact absurd (lt_of_le_of_lt (h1.trans h12) h2) (lt_irrefl _)
    · rw [if_neg (not_lt.mpr h1), if_neg (not_lt.mpr h2)]
  · simp only [brakeSpeed]
    exact le_max_left _ _
  · intro hb ht
    simp only [brakeSpeed]
    rw [if_neg (not_lt.mpr ht)]
    exact max_eq_right hb
  · intro hd
    simp only [desiredSpeedOf, if_pos hd]

unseal Rat.add Rat.mul Rat.inv Rat.sub in
/-- Witness for C5: the amended braking properties at base speed 1 m/s,
waypoint distance 20 m and virtual-target distances 2, 3 and 11 m. -/
theorem brakeSpeed_monotone_floor_base_witness :
    brakeSpeed 1 2 ≤ brakeSpeed 1 3 ∧
    minSpeed ≤ brakeSpeed 1 2 ∧
    brakeSpeed 1 11 = 1 ∧
    desiredSpeedOf testPrims ⟨0, 0⟩ ⟨0, 1⟩ 1 20 =
      brakeSpeed 1 (computeDistance testPrims ⟨0, 0⟩
        (getVirtualTarget testPrims ⟨0, 0⟩ ⟨0, 1⟩ ((1:ℚ) ^ 2 / (2 * 2)) 10)) :=
  ⟨(brakeSpeed_monotone_floor_base testPrims ⟨0, 0⟩ ⟨0, 1⟩ 1 20 2 3).1
      (by decide) (by decide),
   (brakeSpeed_monotone_floor_base testPrims ⟨0, 0⟩ ⟨0, 1⟩ 1 20 2 3).2.1,
   (brakeSpeed_monotone_floor_base testPrims ⟨0, 0⟩ ⟨0, 1⟩ 1 20 11 3).2.2.1
      (by decide) (by decide),
   (brakeSpeed_monotone_floor_base testPrims ⟨0, 0⟩ ⟨0, 1⟩ 1 20 2 3).2.2.2
      (by decide)⟩

unseal Rat.add Rat.mul Rat.inv Rat.sub in
/-- Counterexample for C5: with base speed 0.25 m/s the claim fails twice.
At waypoint distance 50 m, outside the braking envelope 0.25^2/4 + 10, the
desired speed is the 0.5 m/s floor, not the base speed; and at waypoint
distance 5 m the desired speed is the bare base speed 0.25, below the claimed
0.5 m/s minimum. -/
theorem desiredSpeed_small_base_cx :
    (1/4 : ℚ) ^ 2 / (2 * 2) + 10 < 50 ∧
    desiredSpeedOf testPrims ⟨0, 0⟩ ⟨0, 1⟩ (1/4) 50 ≠ 1/4 ∧
    desiredSpeedOf testPrims ⟨0, 0⟩ ⟨0, 1⟩ (1/4) 5 < 1/2 := by
  decide

/-- C6 (amended).  A start command on a state whose route has fewer than 2
points returns with the state completely unmutated and with no synchronous
output at all: the early return on line 413 of the source is silent. -/
theorem startFlight_rejects_short_route (pr : Prims) (ss : SimState)
    (h : ss.s.route.length < 2) : startFlight pr ss = (ss, []) := by
  simp [startFlight, h]

/-- Witness for C6: a start command on the initial (empty-route) state. -/
theorem startFlight_rejects_short_route_witness :
    initSimState.s.route.length < 2 ∧ startFlight testPrims initSimState = (initSimState, []) :=
  ⟨by decide, startFlight_rejects_short_route testPrims initSimState (by decide)⟩

unseal Rat.add Rat.mul Rat.inv Rat.sub in
/-- Counterexample for C6: on a concrete one-point route the start command is
rejected, yet the call produces no synchronous notification: its observable
output (the console log of the model) is empty and the state is untouched, so
the caller is not notified of the rejection. -/
theorem startFlight_short_route_silent_cx :
    ({ initState with route := [⟨0, 0⟩] } : DroneState).route.length < 2 ∧
    (startFlight testPrims ⟨{ initState with route := [⟨0, 0⟩] }, 0, 0⟩).2 = [] ∧
    (startFlight testPrims ⟨{ initState with route := [⟨0, 0⟩] }, 0, 0⟩).1 =
      ⟨{ initState with route := [⟨0, 0⟩] }, 0, 0⟩ := by
  refine ⟨by decide, ?_, ?_⟩ <;> decide

/-- The movement integration never touches the home position, the battery, the
jam zone or the crash flag. -/
lemma moveToward_frame (pr : Prims) (dt : ℚ) (wp : Pos) (sp : ℚ) (s : DroneState) :
    (moveToward pr dt wp sp s).homePosition = s.homePosition ∧
    (moveToward pr dt wp sp s).batteryLevel = s.batteryLevel ∧
    (moveToward pr dt wp sp s).jamZone = s.jamZone := by
  exact ⟨rfl, rfl, rfl⟩

/-- The waypoint-advance logic never touches the home position, the battery or
the jam zone. -/
lemma advanceWp_frame (pr : Prims) (s : DroneState) (wp0 : Pos) (d0 : ℚ) :
    (advanceWp pr s wp0 d0).1.homePosition = s.homePosition ∧
    (advanceWp pr s wp0 d0).1.batteryLevel = s.batteryLevel ∧
    (advanceWp pr s wp0 d0).1.jamZone = s.jamZone := by
  simp only [advanceWp]
  split_ifs <;> exact ⟨rfl, rfl, rfl⟩

/-- The whole horizontal phase preserves home position, battery and jam zone. -/
lemma horizontalStep_frame {pr : Prims} {dt : ℚ} {s s1 : DroneState}
    (h : horizontalStep pr dt s = some s1) :
    s1.homePosition = s.homePosition ∧
    s1.batteryLevel = s.batteryLevel ∧
    s1.jamZone = s.jamZone := by
  unfold horizontalStep at h
  split at h
  · split at h
    · cases hg : s.route.get? s.waypointIndex with
      | none => rw [hg] at h; cases h
      | some wp0 =>
        rw [hg] at h
        simp only [Option.some.injEq] at h
        subst h
        by_cases hd : computeDistance pr s.position wp0 < 10
        · rw [if_pos hd]
          refine ⟨?_, ?_, ?_⟩ <;>
            simp [moveToward_frame, (advanceWp_frame pr s wp0 _).1,
              (advanceWp_frame pr s wp0 _).2.1, (advanceWp_frame pr s wp0 _).2.2]
        · rw [if_neg hd]
          exact ⟨rfl, rfl, rfl⟩
    · simp only [Option.some.injEq] at h
      subst h
      exact ⟨rfl, rfl, rfl⟩
  · simp only [Option.some.injEq] at h
    subst h
    exact ⟨rfl, rfl, rfl⟩

/-- The mode-transition phase preserves position, home position, battery, jam
zone and wind. -/
lemma verticalModeStep_frame (integ : ℚ) (s : DroneState) :
    (verticalModeStep integ s).1.position = s.position ∧
    (verticalModeStep integ s).1.homePosition = s.homePosition ∧
    (verticalModeStep integ s).1.batteryLevel = s.batteryLevel ∧
    (verticalModeStep integ s).1.jamZone = s.jamZone := by
  simp only [verticalModeStep]
  split_ifs <;> exact ⟨rfl, rfl, rfl, rfl⟩

/-- The PID phase preserves position, home position, battery and jam zone. -/
lemma pidStep_frame (r : RandDraw) (dt lastErr integ : ℚ) (s : DroneState) :
    (pidStep r dt lastErr integ s).1.position = s.position ∧
    (pidStep r dt lastErr integ s).1.homePosition = s.homePosition ∧
    (pidStep r dt lastErr integ s).1.batteryLevel = s.batteryLevel ∧
    (pidStep r dt lastErr integ s).1.jamZone = s.jamZone := by
  simp only [pidStep]
  split_ifs <;> exact ⟨rfl, rfl, rfl, rfl⟩

/-- The jam phase preserves home position and battery in all branches. -/
lemma jamStep_frame (pr : Prims) (r : RandDraw) (s : DroneState) :
    (jamStep pr r s).homePosition = s.homePosition ∧
    (jamStep pr r s).batteryLevel = s.batteryLevel := by
  cases hj : s.jamZone with
  | none => simp [jamStep, hj]
  | some jz =>
    simp only [jamStep, hj]
    split_ifs <;> exact ⟨rfl, rfl⟩

/-- The power phase touches only engine RPM, battery level and temperature. -/
lemma powerStep_frame (pr : Prims) (dt va : ℚ) (s : DroneState) :
    (powerStep pr dt va s).homePosition = s.homePosition ∧
    (powerStep pr dt va s).altitude = s.altitude ∧
    (powerStep pr dt va s).vx = s.vx ∧
    (powerStep pr dt va s).vy = s.vy ∧
    (powerStep pr dt va s).verticalSpeed = s.verticalSpeed ∧
    (powerStep pr dt va s).crashed = s.crashed ∧
    (powerStep pr dt va s).flightStarted = s.flightStarted := by
  exact ⟨rfl, rfl, rfl, rfl, rfl, rfl, rfl⟩

/-- The odometry phase touches only total distance and flight time. -/
lemma odometryStep_frame (pr : Prims) (dt : ℚ) (prevPos : Pos) (s : DroneState) :
    (odometryStep pr dt prevPos s).homePosition = s.homePosition ∧
    (odometryStep pr dt prevPos s).altitude = s.altitude ∧
    (odometryStep pr dt prevPos s).vx = s.vx ∧
    (odometryStep pr dt prevPos s).vy = s.vy ∧
    (odometryStep pr dt prevPos s).verticalSpeed = s.verticalSpeed ∧
    (odometryStep pr dt prevPos s).crashed = s.crashed ∧
    (odometryStep pr dt prevPos s).flightStarted = s.flightStarted ∧
    (odometryStep pr dt prevPos s).batteryLevel = s.batteryLevel := by
  simp only [odometryStep]
  split_ifs <;> exact ⟨rfl, rfl, rfl, rfl, rfl, rfl, rfl, rfl⟩

/-- Odometry keeps the home position. -/
lemma odometryStep_home (pr : Prims) (dt : ℚ) (pp : Pos) (s : DroneState) :
    (odometryStep pr dt pp s).homePosition = s.homePosition :=
  (odometryStep_frame pr dt pp s).1

/-- The power phase keeps the home position. -/
lemma powerStep_home (pr : Prims) (dt va : ℚ) (s : DroneState) :
    (powerStep pr dt va s).homePosition = s.homePosition :=
  (powerStep_frame pr dt va s).1

/-- The jam phase keeps the home position. -/
lemma jamStep_home (pr : Prims) (r : RandDraw) (s : DroneState) :
    (jamStep pr r s).homePosition = s.homePosition :=
  (jamStep_frame pr r s).1

/-- The PID phase keeps the home position. -/
lemma pidStep_home (r : RandDraw) (dt lastErr integ : ℚ) (s : DroneState) :
    (pidStep r dt lastErr integ s).1.homePosition = s.homePosition :=
  (pidStep_frame r dt lastErr integ s).2.1

/-- The mode-transition phase keeps the home position. -/
lemma verticalModeStep_home (integ : ℚ) (s : DroneState) :
    (verticalModeStep integ s).1.homePosition = s.homePosition :=
  (verticalModeStep_frame integ s).2.1

/-- C8 (amended).  Once the home position is set, every command except the
explicit setHome command and the reset handler preserves it (in particular the
start command only fills it when it is absent), and a physics tick never
changes it either. -/
theorem homePosition_set_once (pr : Prims) (c : Cmd) (ss : SimState) (p : Pos)
    (hp : ss.s.homePosition = some p) (hc : c.isHomeWriter = false) :
    (applyCmd pr c ss).s.homePosition = some p ∧
    (∀ (r : RandDraw) (dt : ℚ) (out : SimState),
      updateFlightPhysics pr r dt ss = some out → out.s.homePosition = some p) := by
  constructor
  · cases c with
    | start =>
      simp only [applyCmd]
      by_cases h2 : ss.s.route.length < 2
      · simp only [startFlight, if_pos h2]
        exact hp
      · simp only [startFlight, if_neg h2]
        by_cases h3 : ss.s.flightStarted = false
        · simp [h3, hp]
        · simp [h3, hp]
    | stop => exact hp
    | setRoute route => exact hp
    | setHome => simp [Cmd.isHomeWriter] at hc
    | takeOff =>
      simp only [applyCmd]
      split_ifs <;> exact hp
    | land =>
      simp only [applyCmd]
      split_ifs <;> exact hp
    | hover =>
      simp only [applyCmd]
      split_ifs <;> exact hp
    | updateParams pm =>
      obtain ⟨sp, tm, ft, asb⟩ := pm
      cases sp <;> cases tm <;> cases ft <;> cases asb <;> exact hp
    | updateWind sp dir => exact hp
    | setJamZone j => exact hp
    | clearJamZone => exact hp
    | setRepeat b => exact hp
    | reset v1 v2 v3 v4 => simp [Cmd.isHomeWriter] at hc
    | nudgeNorth => exact hp
    | nudgeSouth => exact hp
    | nudgeEast => exact hp
    | nudgeWest => exact hp
    | altUp => exact hp
    | altDown => exact hp
  · intro r dt out hout
    unfold updateFlightPhysics at hout
    by_cases hcr : ss.s.crashed = true
    · rw [if_pos hcr] at hout
      injection hout with hout
      rw [← hout]
      exact hp
    · rw [if_neg hcr] at hout
      cases hh : horizontalStep pr dt ss.s with
      | none => rw [hh] at hout; cases hout
      | some s1 =>
        rw [hh] at hout
        simp only [Option.some.injEq] at hout
        subst hout
        simp only [odometryStep_home, powerStep_home, jamStep_home, pidStep_home,
          verticalModeStep_home, (horizontalStep_frame hh).1, hp]

/-- Witness for C8: the stop command on a state with a home position. -/
theorem homePosition_set_once_witness :
    ({ initState with homePosition := some ⟨1, 2⟩ } : DroneState).homePosition = some ⟨1, 2⟩ ∧
    Cmd.isHomeWriter Cmd.stop = false ∧
    (applyCmd testPrims Cmd.stop
      ⟨{ initState with homePosition := some ⟨1, 2⟩ }, 0, 0⟩).s.homePosition = some ⟨1, 2⟩ :=
  ⟨rfl, rfl,
    (homePosition_set_once testPrims Cmd.stop
      ⟨{ initState with homePosition := some ⟨1, 2⟩ }, 0, 0⟩ ⟨1, 2⟩ rfl rfl).1⟩

unseal Rat.add Rat.mul Rat.inv Rat.sub in
/-- Counterexample for C8: the setHome command, which is not the reset
command, overwrites an already-set home position with the current position. -/
theorem setHome_overwrites_home_cx :
    ({ initState with homePosition := some ⟨1, 1⟩, position := ⟨2, 2⟩ } : DroneState).homePosition
        = some ⟨1, 1⟩ ∧
    (applyCmd testPrims Cmd.setHome
      ⟨{ initState with homePosition := some ⟨1, 1⟩, position := ⟨2, 2⟩ }, 0, 0⟩).s.homePosition
        ≠ some ⟨1, 1⟩ := by
  exact ⟨rfl, by decide⟩

/-- The power phase rewrites the battery exactly as the source does: previous
level minus 0.01 * totalLoad * dt, floored at 0. -/
lemma powerStep_battery (pr : Prims) (dt va : ℚ) (s : DroneState) :
    (powerStep pr dt va s).batteryLevel =
      if s.batteryLevel - (1/100) * (|va| + pr.sqrt (s.vx * s.vx + s.vy * s.vy)) * dt < 0 then 0
      else s.batteryLevel - (1/100) * (|va| + pr.sqrt (s.vx * s.vx + s.vy * s.vy)) * dt := rfl

/-- The power phase keeps the altitude. -/
lemma powerStep_altitude (pr : Prims) (dt va : ℚ) (s : DroneState) :
    (powerStep pr dt va s).altitude = s.altitude := rfl

/-- The power phase keeps the crash flag. -/
lemma powerStep_crashed (pr : Prims) (dt va : ℚ) (s : DroneState) :
    (powerStep pr dt va s).crashed = s.crashed := rfl

/-- The power phase keeps the flight flag. -/
lemma powerStep_flight (pr : Prims) (dt va : ℚ) (s : DroneState) :
    (powerStep pr dt va s).flightStarted = s.flightStarted := rfl

/-- The power phase keeps the horizontal and vertical velocities. -/
lemma powerStep_vel (pr : Prims) (dt va : ℚ) (s : DroneState) :
    (powerStep pr dt va s).vx = s.vx ∧ (powerStep pr dt va s).vy = s.vy ∧
    (powerStep pr dt va s).verticalSpeed = s.verticalSpeed := ⟨rfl, rfl, rfl⟩

/-- Odometry keeps the altitude. -/
lemma odometryStep_altitude (pr : Prims) (dt : ℚ) (pp : Pos) (s : DroneState) :
    (odometryStep pr dt pp s).altitude = s.altitude := (odometryStep_frame pr dt pp s).2.1

/-- Odometry keeps the crash flag. -/
lemma odometryStep_crashed (pr : Prims) (dt : ℚ) (pp : Pos) (s : DroneState) :
    (odometryStep pr dt pp s).crashed = s.crashed :=
  (odometryStep_frame pr dt pp s).2.2.2.2.2.1

/-- Odometry keeps the flight flag. -/
lemma odometryStep_flight (pr : Prims) (dt : ℚ) (pp : Pos) (s : DroneState) :
    (odometryStep pr dt pp s).flightStarted = s.flightStarted :=
  (odometryStep_frame pr dt pp s).2.2.2.2.2.2.1

/-- Odometry keeps the velocities. -/
lemma odometryStep_vel (pr : Prims) (dt : ℚ) (pp : Pos) (s : DroneState) :
    (odometryStep pr dt pp s).vx = s.vx ∧ (odometryStep pr dt pp s).vy = s.vy ∧
    (odometryStep pr dt pp s).verticalSpeed = s.verticalSpeed :=
  ⟨(odometryStep_frame pr dt pp s).2.2.1, (odometryStep_frame pr dt pp s).2.2.2.1,
   (odometryStep_frame pr dt pp s).2.2.2.2.1⟩

/-- Odometry keeps the battery. -/
lemma odometryStep_battery (pr : Prims) (dt : ℚ) (pp : Pos) (s : DroneState) :
    (odometryStep pr dt pp s).batteryLevel = s.batteryLevel :=
  (odometryStep_frame pr dt pp s).2.2.2.2.2.2.2

/-- Inside the innermost 10 percent of an active jam zone the jam phase sets
the crash flag, clears the flight flag, and leaves exactly the crash values
0, 0, -5 perturbed by this tick's jam noise in the velocity fields. -/
lemma jamStep_innerCrash (pr : Prims) (r : RandDraw) (s : DroneState) (j : Jam)
    (hj : s.jamZone = some j)
    (hr : computeDistance pr s.position j.center < j.radius)
    (h01 : computeDistance pr s.position j.center < (1/10) * j.radius) :
    (jamStep pr r s).crashed = true ∧
    (jamStep pr r s).flightStarted = false ∧
    (jamStep pr r s).vx = 0 + (r.vxN - 1/2) * 1 * jamFactor pr j s.position ∧
    (jamStep pr r s).vy = 0 + (r.vyN - 1/2) * 1 * jamFactor pr j s.position ∧
    (jamStep pr r s).verticalSpeed = -5 + (r.vzN - 1/2) * 1 * jamFactor pr j s.position := by
  simp only [jamStep, hj]
  rw [if_pos hr, if_pos h01]
  exact ⟨rfl, rfl, rfl, rfl, rfl⟩

/-- When the vehicle is not strictly inside an active jam zone the jam phase
only adjusts GPS quality and keeps the altitude. -/
lemma jamStep_alt_outside (pr : Prims) (r : RandDraw) (s : DroneState)
    (h : ∀ j, s.jamZone = some j → ¬ computeDistance pr s.position j.center < j.radius) :
    (jamStep pr r s).altitude = s.altitude := by
  cases hj : s.jamZone with
  | none => simp [jamStep, hj]
  | some jz =>
    simp only [jamStep, hj]
    rw [if_neg (h jz hj)]

/-- The PID phase always leaves a nonnegative altitude: the integration result
is floored at 0 (source lines 274-277). -/
lemma pidStep_alt_nonneg (r : RandDraw) (dt lastErr integ : ℚ) (s : DroneState) :
    0 ≤ (pidStep r dt lastErr integ s).1.altitude := by
  simp only [pidStep]
  split_ifs with h
  · exact le_rfl
  · exact not_lt.mp h

/-- C2 (amended).  For every non-crashed state with an active jam zone of
positive radius, if the position reached by this tick's movement phase lies
within 10 percent of the radius from the zone center, then the tick sets the
crash flag and clears the flight flag for every realization of the random
draws; the horizontal velocities and the vertical speed are set to 0, 0 and
-5 m/s by the crash and then offset, within the same tick, by the jam noise
terms scaled by the amplification factor. -/
theorem jam_inner_zone_forces_crash (pr : Prims) (r : RandDraw) (dt : ℚ) (ss : SimState)
    (j : Jam) (s1 : DroneState)
    (hcr : ss.s.crashed = false)
    (hj : ss.s.jamZone = some j)
    (hrad : 0 < j.radius)
    (h1 : horizontalStep pr dt ss.s = some s1)
    (hd : computeDistance pr s1.position j.center < (1/10) * j.radius) :
    ∃ out, updateFlightPhysics pr r dt ss = some out ∧
      out.s.crashed = true ∧ out.s.flightStarted = false ∧
      out.s.vx = 0 + (r.vxN - 1/2) * 1 * jamFactor pr j s1.position ∧
      out.s.vy = 0 + (r.vyN - 1/2) * 1 * jamFactor pr j s1.position ∧
      out.s.verticalSpeed = -5 + (r.vzN - 1/2) * 1 * jamFactor pr j s1.position := by
  have hncr : ¬ ss.s.crashed = true := by simp [hcr]
  have hr' : computeDistance pr s1.position j.center < j.radius :=
    lt_of_lt_of_le hd (by linarith)
  set v := verticalModeStep ss.altErrorIntegral s1 with hv
  set p := pidStep r dt ss.lastAltError v.2 v.1 with hpdef
  have hpos : p.1.position = s1.position := by
    rw [hpdef, (pidStep_frame r dt ss.lastAltError v.2 v.1).1, hv,
      (verticalModeStep_frame ss.altErrorIntegral s1).1]
  have hjz : p.1.jamZone = some j := by
    rw [hpdef, (pidStep_frame r dt ss.lastAltError v.2 v.1).2.2.2, hv,
      (verticalModeStep_frame ss.altErrorIntegral s1).2.2.2,
      (horizontalStep_frame h1).2.2, hj]
  have hjam := jamStep_innerCrash pr r p.1 j hjz
    (by rw [hpos]; exact hr') (by rw [hpos]; exact hd)
  refine ⟨⟨odometryStep pr dt ss.s.position (powerStep pr dt p.2.2.2 (jamStep pr r p.1)),
    p.2.1, p.2.2.1⟩, ?_, ?_, ?_, ?_, ?_, ?_⟩
  · unfold updateFlightPhysics
    rw [if_neg hncr, h1]
  · rw [odometryStep_crashed, powerStep_crashed, hjam.1]
  · rw [odometryStep_flight, powerStep_flight, hjam.2.1]
  · rw [(odometryStep_vel pr dt ss.s.position _).1, (powerStep_vel pr dt _ _).1,
      hjam.2.2.1, hpos]
  · rw [(odometryStep_vel pr dt ss.s.position _).2.1, (powerStep_vel pr dt _ _).2.1,
      hjam.2.2.2.1, hpos]
  · rw [(odometryStep_vel pr dt ss.s.position _).2.2, (powerStep_vel pr dt _ _).2.2,
      hjam.2.2.2.2, hpos]

/-- Grounded test state sitting at the exact center of a 100 m jam zone. -/
def jamWitState : DroneState :=
  { initState with position := ⟨0, 0⟩, jamZone := some ⟨⟨0, 0⟩, 100⟩ }

unseal Rat.add Rat.mul Rat.inv Rat.sub in
/-- Witness for C2: the jam-crash theorem at the center of a concrete zone. -/
theorem jam_inner_zone_forces_crash_witness :
    ∃ out, updateFlightPhysics testPrims drawOne (1/10) ⟨jamWitState, 0, 0⟩ = some out ∧
      out.s.crashed = true ∧ out.s.flightStarted = false ∧
      out.s.vx = 0 + (drawOne.vxN - 1/2) * 1 * jamFactor testPrims ⟨⟨0, 0⟩, 100⟩ jamWitState.position ∧
      out.s.vy = 0 + (drawOne.vyN - 1/2) * 1 * jamFactor testPrims ⟨⟨0, 0⟩, 100⟩ jamWitState.position ∧
      out.s.verticalSpeed =
        -5 + (drawOne.vzN - 1/2) * 1 * jamFactor testPrims ⟨⟨0, 0⟩, 100⟩ jamWitState.position :=
  jam_inner_zone_forces_crash testPrims drawOne (1/10) ⟨jamWitState, 0, 0⟩ ⟨⟨0, 0⟩, 100⟩
    jamWitState rfl rfl (by decide) rfl (by decide)

unseal Rat.add Rat.mul Rat.inv Rat.sub in
/-- Counterexample for C2: at the center of the zone with unit random draws
the post-tick horizontal velocity is not zero, because the jam noise of the
same tick is added after the crash zeroes the velocity. -/
theorem jam_crash_velocity_not_zero_cx :
    ∃ out, updateFlightPhysics testPrimsC drawOne (1/10) ⟨jamWitState, 0, 0⟩ = some out ∧
      out.s.crashed = true ∧ out.s.vx ≠ 0 := by
  refine ⟨_, rfl, ?_, ?_⟩ <;> decide

/-- C3 (amended).  When the position reached by this tick's movement phase is
not strictly inside an active jam zone, one tick always leaves a nonnegative
altitude: the PID integration floors the altitude at 0 (resetting the vertical
speed), and no later phase of such a tick modifies the altitude.  Inside a jam
zone the additive altitude perturbation can break this (see the
counterexample). -/
theorem altitude_nonneg_outside_jam (pr : Prims) (r : RandDraw) (dt : ℚ) (ss : SimState)
    (s1 : DroneState)
    (hcr : ss.s.crashed = false)
    (h1 : horizontalStep pr dt ss.s = some s1)
    (hjam : ∀ jz, ss.s.jamZone = some jz →
      ¬ computeDistance pr s1.position jz.center < jz.radius) :
    ∀ out, updateFlightPhysics pr r dt ss = some out → 0 ≤ out.s.altitude := by
  intro out hout
  have hncr : ¬ ss.s.crashed = true := by simp [hcr]
  unfold updateFlightPhysics at hout
  rw [if_neg hncr, h1] at hout
  simp only [Option.some.injEq] at hout
  subst hout
  set v := verticalModeStep ss.altErrorIntegral s1 with hv
  set p := pidStep r dt ss.lastAltError v.2 v.1 with hpdef
  have hpos : p.1.position = s1.position := by
    rw [hpdef, (pidStep_frame r dt ss.lastAltError v.2 v.1).1, hv,
      (verticalModeStep_frame ss.altErrorIntegral s1).1]
  have hjz : p.1.jamZone = ss.s.jamZone := by
    rw [hpdef, (pidStep_frame r dt ss.lastAltError v.2 v.1).2.2.2, hv,
      (verticalModeStep_frame ss.altErrorIntegral s1).2.2.2,
      (horizontalStep_frame h1).2.2]
  simp only [odometryStep_altitude, powerStep_altitude]
  rw [jamStep_alt_outside pr r p.1 ?_]
  · exact pidStep_alt_nonneg r dt ss.lastAltError v.2 v.1
  · intro jz hz
    rw [hpos]
    exact hjam jz (hjz ▸ hz)

unseal Rat.add Rat.mul Rat.inv Rat.sub in
/-- Witness for C3: a tick of the initial grounded state (no jam zone). -/
theorem altitude_nonneg_outside_jam_witness :
    ∃ out, updateFlightPhysics testPrims drawHalf (1/10) initSimState = some out ∧
      0 ≤ out.s.altitude := by
  have T := altitude_nonneg_outside_jam testPrims drawHalf (1/10) initSimState initState
    rfl rfl (fun jz hz => by simp [initSimState, initState] at hz)
  exact ⟨_, rfl, T _ rfl⟩

/-- Grounded test state inside (but not at the center of) a 10 m jam zone
under the primitives of `testPrimsB`, which place it 6.371 m from the
center. -/
def jamMidState : DroneState :=
  { initState with position := ⟨0, 0⟩, jamZone := some ⟨⟨0, 0⟩, 10⟩ }

unseal Rat.add Rat.mul Rat.inv Rat.sub in
/-- Counterexample for C3: inside an active jam zone the additive altitude
perturbation of the jam phase is applied after the floor at 0, so a tick from
altitude 0 can end with a strictly negative altitude. -/
theorem jam_noise_drives_altitude_negative_cx :
    ∃ out, updateFlightPhysics testPrimsB drawOne (1/10) ⟨jamMidState, 0, 0⟩ = some out ∧
      out.s.altitude < 0 := by
  refine ⟨_, rfl, ?_⟩
  decide

/-- C9.  For every positive tick duration, nonnegative square-root primitive
(so the commanded load is nonnegative) and nonnegative starting battery level,
a tick of a non-crashed state sets the battery to the previous level minus
0.01 * load * dt floored at 0; in particular the post-tick level never exceeds
the pre-tick level and stays nonnegative. -/
theorem battery_monotone_decay (pr : Prims) (r : RandDraw) (dt : ℚ) (ss : SimState)
    (s1 : DroneState)
    (hdt : 0 ≤ dt)
    (hsq : ∀ x, 0 ≤ pr.sqrt x)
    (hb : 0 ≤ ss.s.batteryLevel)
    (hcr : ss.s.crashed = false)
    (h1 : horizontalStep pr dt ss.s = some s1) :
    ∀ out, updateFlightPhysics pr r dt ss = some out →
      out.s.batteryLevel =
        (if ss.s.batteryLevel - (1/100) * tickLoad pr r dt ss s1 * dt < 0 then 0
         else ss.s.batteryLevel - (1/100) * tickLoad pr r dt ss s1 * dt) ∧
      out.s.batteryLevel ≤ ss.s.batteryLevel ∧ 0 ≤ out.s.batteryLevel := by
  intro out hout
  have hncr : ¬ ss.s.crashed = true := by simp [hcr]
  unfold updateFlightPhysics at hout
  rw [if_neg hncr, h1] at hout
  simp only [Option.some.injEq] at hout
  subst hout
  set v := verticalModeStep ss.altErrorIntegral s1 with hv
  set p := pidStep r dt ss.lastAltError v.2 v.1 with hpdef
  set s4 := jamStep pr r p.1 with hs4
  have hbatt4 : s4.batteryLevel = ss.s.batteryLevel := by
    rw [hs4, (jamStep_frame pr r p.1).2, hpdef,
      (pidStep_frame r dt ss.lastAltError v.2 v.1).2.2.1, hv,
      (verticalModeStep_frame ss.altErrorIntegral s1).2.2.1,
      (horizontalStep_frame h1).2.1]
  have hload : tickLoad pr r dt ss s1 =
      |p.2.2.2| + pr.sqrt (s4.vx * s4.vx + s4.vy * s4.vy) := rfl
  have hload_nn : 0 ≤ tickLoad pr r dt ss s1 := by
    rw [hload]
    exact add_nonneg (abs_nonneg _) (hsq _)
  have hx : 0 ≤ (1/100) * tickLoad pr r dt ss s1 * dt :=
    mul_nonneg (mul_nonneg (by norm_num) hload_nn) hdt
  have heq : (odometryStep pr dt ss.s.position (powerStep pr dt p.2.2.2 s4)).batteryLevel =
      (if ss.s.batteryLevel - (1/100) * tickLoad pr r dt ss s1 * dt < 0 then 0
       else ss.s.batteryLevel - (1/100) * tickLoad pr r dt ss s1 * dt) := by
    rw [odometryStep_battery, powerStep_battery, hbatt4, ← hload]
  refine ⟨heq, ?_, ?_⟩
  · rw [heq]
    split_ifs with h
    · exact hb
    · linarith
  · rw [heq]
    split_ifs with h
    · exact le_rfl
    · exact not_lt.mp h

unseal Rat.add Rat.mul Rat.inv Rat.sub in
/-- Witness for C9: a tick of the initial grounded state under the constant
test primitives (whose square root is identically 0, hence nonnegative). -/
theorem battery_monotone_decay_witness :
    (0:ℚ) ≤ 1/10 ∧ (∀ x, 0 ≤ testPrims.sqrt x) ∧ 0 ≤ initSimState.s.batteryLevel ∧
    (∃ out, updateFlightPhysics testPrims drawHalf (1/10) initSimState = some out ∧
      (out.s.batteryLevel =
        (if initSimState.s.batteryLevel -
            (1/100) * tickLoad testPrims drawHalf (1/10) initSimState initState * (1/10) < 0
         then 0
         else initSimState.s.batteryLevel -
            (1/100) * tickLoad testPrims drawHalf (1/10) initSimState initState * (1/10)) ∧
       out.s.batteryLevel ≤ initSimState.s.batteryLevel ∧ 0 ≤ out.s.batteryLevel)) := by
  have T := battery_monotone_decay testPrims drawHalf (1/10) initSimState initState
    (by decide) (fun x => le_rfl) (by decide) rfl rfl
  exact ⟨by decide, fun x => le_rfl, by decide, ⟨_, rfl, T _ rfl⟩⟩
